import Mathlib

/-!
Verification of the cover-generator repository: a shallow embedding of its
image cropper, layout seeding, sticker model, layout-service error handling,
and canvas compositor, with theorems settling the specification's claims.

Conventions: machine floats are modelled as exact rationals (ℚ); the DOM
canvas context is modelled as a trace of drawing commands; JS `undefined`
optional fields become `Option`; JS truthiness on strings treats `""` like
`undefined`.
-/

namespace CoverGen

/-! ### String helpers (JS semantics) -/

/-- Checks that `pat` occurs at the head of `s` (over character lists). -/
def leadsWith : List Char → List Char → Bool
  | [], _ => true
  | _ :: _, [] => false
  | p :: ps, c :: cs => p = c && leadsWith ps cs

/-- Substring containment over character lists, modelling JS `String.includes`. -/
def containsSub (pat : List Char) : List Char → Bool
  | [] => leadsWith pat []
  | c :: cs => leadsWith pat (c :: cs) || containsSub pat cs

/-- String form of `containsSub`, modelling `str.includes(pat)`. -/
def strIncludes (s pat : String) : Bool :=
  containsSub pat.data s.data

/-- JS `a || d` for an optional string `a`: `undefined` and `""` are falsy. -/
def strOrDefault (o : Option String) (d : String) : String :=
  match o with
  | none => d
  | some s => if s = "" then d else s

/-- JS falsiness of an optional string (`!s` in the source). -/
def strFalsy (o : Option String) : Bool :=
  match o with
  | none => true
  | some s => s = ""

/-! ### Aspect ratios and crop output size (ImageCropper) -/

/-- The `AspectRatio` enum from `types.ts`. -/
inductive AspectRatio where
  | landscape   -- '16:9'
  | portrait    -- '9:16'
  | square      -- '1:1'
  | vertical    -- '3:4'
  deriving DecidableEq, Repr

/-- The `RATIO_MULTIPLIERS` table of `ImageCropper`: width/height ratio. -/
def ratioMultipliers : AspectRatio → ℚ
  | .vertical => 3 / 4
  | .square => 1 / 1
  | .portrait => 9 / 16
  | .landscape => 16 / 9

/-- The fixed `outputWidth = 1080` of `handleSave`. -/
def outputWidth : ℚ := 1080

/-- The computed `outputHeight = outputWidth / targetRatio` of `handleSave`. -/
def outputHeight (r : AspectRatio) : ℚ :=
  outputWidth / ratioMultipliers r

/-- Height of the output canvas element in device pixels: assigning the
fractional `outputHeight` to `canvas.height` truncates to an integer
(HTML IDL unsigned-long coercion). -/
def canvasHeightPx (r : AspectRatio) : ℤ :=
  ⌊outputHeight r⌋

/-! ### Cropper pan/zoom state machine (ImageCropper) -/

/-- Pan/zoom state of the cropper: `position` and `scale` React state. -/
structure CropState where
  posX : ℚ
  posY : ℚ
  scale : ℚ
  deriving DecidableEq, Repr

/-- The reset effect on `[imageUrl, aspectRatio]`: position (0,0), scale 1. -/
def resetState : CropState := ⟨0, 0, 1⟩

/-- User events that mutate the cropper transform. A pointer drag ends by
setting `position` to an arbitrary new value (`clientX - dragStart`); the
zoom slider is an HTML range input with `min=0.5 max=3`, whose reported
values the browser keeps inside that range. -/
inductive CropEvent where
  | dragTo (x y : ℚ)
  | zoomSlider (v : ℚ)
  | resetConfig
  deriving DecidableEq, Repr

/-- Range-input clamping of the zoom slider value to `[0.5, 3]`. -/
def sliderClamp (v : ℚ) : ℚ := max (1 / 2) (min 3 v)

/-- One transition of the cropper transform state. -/
def stepCrop (s : CropState) : CropEvent → CropState
  | .dragTo x y => { s with posX := x, posY := y }
  | .zoomSlider v => { s with scale := sliderClamp v }
  | .resetConfig => resetState

/-- Transform state reached after a sequence of events from a fresh cropper. -/
def runCrop (evs : List CropEvent) : CropState :=
  evs.foldl stepCrop resetState

/-- Base rendered size `(rw, rh)` of the image element at scale 1: the
cover-fit rule of `handleSave` (and the `isImageWider` render logic). -/
def baseRenderSize (cw ch nw nh : ℚ) : ℚ × ℚ :=
  if nw / nh > cw / ch then (ch * (nw / nh), ch) else (cw, cw / (nw / nh))

/-- Minimum scale at which the base-rendered image covers the container in
both dimensions (the spec's "minimum computed from image vs. container
aspect ratio"). -/
def minCoverScale (cw ch nw nh : ℚ) : ℚ :=
  max (cw / (baseRenderSize cw ch nw nh).1) (ch / (baseRenderSize cw ch nw nh).2)

/-- Full coverage of the crop window by the transformed image: the image,
centered at container center plus pan and scaled, spans the whole window. -/
def covers (cw ch nw nh : ℚ) (s : CropState) : Prop :=
  |s.posX| ≤ (s.scale * (baseRenderSize cw ch nw nh).1 - cw) / 2 ∧
  |s.posY| ≤ (s.scale * (baseRenderSize cw ch nw nh).2 - ch) / 2

/-! ### Coordinate mapper (handleSave's mapDomToSource) -/

/-- The `mapDomToSource` closure of `handleSave`: maps a container-local DOM
point `(dx, dy)` to source-image natural-pixel coordinates, given container
size, natural size, pan and scale. -/
def mapDomToSource (cw ch nw nh posX posY scale dx dy : ℚ) : ℚ × ℚ :=
  let rw := (baseRenderSize cw ch nw nh).1
  let vx := dx - (cw / 2 + posX)
  let vy := dy - (ch / 2 + posY)
  let vxUnscaled := vx / scale
  let vyUnscaled := vy / scale
  let scaleX := nw / rw
  (nw / 2 + vxUnscaled * scaleX, nh / 2 + vyUnscaled * scaleX)

/-- Crop source rectangle `(sx, sy, sw, sh)` computed by `handleSave` from
the two mapped container corners. -/
def cropSourceRect (cw ch nw nh posX posY scale : ℚ) : ℚ × ℚ × ℚ × ℚ :=
  let topLeft := mapDomToSource cw ch nw nh posX posY scale 0 0
  let bottomRight := mapDomToSource cw ch nw nh posX posY scale cw ch
  (topLeft.1, topLeft.2, bottomRight.1 - topLeft.1, bottomRight.2 - topLeft.2)

/-! ### Scene model: stickers and layout config (types.ts) -/

/-- The `Sticker` interface of `types.ts`. -/
structure Sticker where
  id : String
  type : String       -- 'emoji' | 'text'
  content : String
  x : ℚ               -- percent of canvas width
  y : ℚ               -- percent of canvas height
  scale : ℚ
  rotation : ℚ        -- degrees
  deriving DecidableEq, Repr

/-- The `LayoutConfig` interface of `types.ts`; optional fields are `Option`. -/
structure LayoutConfig where
  subtitle : String
  textColor : String
  shadowColor : String
  fontStyle : String      -- 'bold' | 'serif' | 'handwritten' | 'modern'
  position : String       -- 'top' | 'bottom' | 'center' | 'split'
  veoPrompt : String
  x : Option ℚ := none
  y : Option ℚ := none
  subtitleX : Option ℚ := none
  subtitleY : Option ℚ := none
  scale : Option ℚ := none
  titleBackgroundColor : Option String := none
  subtitleTextColor : Option String := none
  subtitleBackgroundColor : Option String := none
  filter : Option String := none
  fontFamily : Option String := none
  deriving DecidableEq, Repr

/-! ### Compositor trace (CoverCanvas) -/

/-- Canvas font setting: weight, size in px, family. -/
structure FontSpec where
  weight : String
  size : ℚ
  family : String
  deriving DecidableEq, Repr

/-- One drawing command issued to the 2D context. Text-drawing commands carry
the fill/stroke style and font set just before them in the source;
`rotateDeg d` stands for `ctx.rotate(d * Math.PI / 180)`; `glyphAtOrigin`
stands for the sticker `fillText(content, 0, 0)` with its centered
alignment and the ambient fill style. -/
inductive DrawOp where
  | drawImage (image : String) (filter : String) (x y w h : ℚ)
  | gradientRect (gx0 gy0 gx1 gy1 x y w h : ℚ)
  | fillRect (color : String) (x y w h : ℚ)
  | fillPill (color : String) (x y w h r : ℚ)
  | strokeTextAt (color : String) (lineWidth : ℚ) (font : FontSpec) (text : String) (x y : ℚ)
  | fillTextAt (color : String) (font : FontSpec) (text : String) (x y : ℚ)
  | saveCtx
  | restoreCtx
  | translateBy (x y : ℚ)
  | scaleBy (sx sy : ℚ)
  | rotateDeg (degrees : ℚ)
  | glyphAtOrigin (content : String) (fontSize : ℚ)
  deriving DecidableEq, Repr

/-- Text measurement environment: the width `ctx.measureText(text).width`
reports under a given font (a property of the rendering environment, fixed
across an app session). -/
def MeasureEnv : Type := FontSpec → String → ℚ

/-- Resolved font family and weight of `drawLayoutText`: the `fontName` /
`fontWeight` mutation chain, with the special cases for display fonts and
the legacy `fontStyle` fallbacks. Returns `(family, weight)`. -/
def resolveFont (config : LayoutConfig) : String × String :=
  let fontName := strOrDefault config.fontFamily "\"Microsoft YaHei\", sans-serif"
  if strIncludes fontName "Ma Shan Zheng" || strIncludes fontName "ZCOOL" then
    (fontName, "normal")
  else if config.fontStyle = "serif" && strFalsy config.fontFamily then
    ("\"Noto Serif SC\", serif", "bold")
  else if config.fontStyle = "modern" && strFalsy config.fontFamily then
    ("\"Noto Sans SC\", sans-serif", "700")
  else
    (fontName, "900")

/-- Title anchor point of `drawLayoutText`: explicit percentages when both
`x` and `y` are set, otherwise derived from the `position` hint. -/
def titleAnchor (config : LayoutConfig) (width height baseSize : ℚ) : ℚ × ℚ :=
  match config.x, config.y with
  | some px, some py => (px / 100 * width, py / 100 * height)
  | _, _ =>
    let tY :=
      if config.position = "top" then height * (15 / 100) + baseSize / 2
      else if config.position = "bottom" then
        height - height * (15 / 100) - baseSize * (8 / 10)
      else if config.position = "split" then height * (15 / 100)
      else height / 2
    (width / 2, tY)

/-- Subtitle anchor point of `drawLayoutText`. -/
def subtitleAnchor (config : LayoutConfig) (width height baseSize : ℚ)
    (titlePos : ℚ × ℚ) : ℚ × ℚ :=
  match config.subtitleX, config.subtitleY with
  | some sx, some sy => (sx / 100 * width, sy / 100 * height)
  | _, _ =>
    if config.position = "split" && config.x.isNone then
      (titlePos.1, height * (85 / 100))
    else (titlePos.1, titlePos.2 + baseSize * (12 / 10))

/-- Effective subtitle background color (`subBgFinal` in the source). -/
def subBgFinal (config : LayoutConfig) : String :=
  strOrDefault config.subtitleBackgroundColor
    (if config.textColor = "#FFFFFF" then config.shadowColor else "#FFFFFF")

/-- Effective subtitle text color (`subTextFinal` in the source). -/
def subTextFinal (config : LayoutConfig) : String :=
  strOrDefault config.subtitleTextColor
    (if config.textColor = "#FFFFFF" then "#FFFFFF" else config.shadowColor)

/-- The `drawLayoutText` function of `CoverCanvas`, as the trace of drawing
commands it issues: title background (when a non-transparent color is set),
stroked then filled title, subtitle drop-shadow pill, subtitle background
pill (unless transparent), subtitle text. -/
def drawLayoutText (measure : MeasureEnv) (config : LayoutConfig)
    (title : String) (width height : ℚ) : List DrawOp :=
  let minDim := min width height
  let scaleV := (config.scale).getD 1
  let baseSize := minDim * (13 / 100) * scaleV
  let subtitleSize := baseSize * (45 / 100)
  let font := resolveFont config
  let titlePos := titleAnchor config width height baseSize
  let subPos := subtitleAnchor config width height baseSize titlePos
  let titleFont : FontSpec := ⟨font.2, baseSize, font.1⟩
  let titleWidth := measure titleFont title
  let titleBgOps :=
    match config.titleBackgroundColor with
    | some c =>
      if c ≠ "" ∧ c ≠ "transparent" then
        let paddingX := baseSize * (6 / 10)
        let bgWidth := titleWidth + paddingX * 2
        let bgHeight := baseSize * (16 / 10)
        [DrawOp.fillPill c (titlePos.1 - bgWidth / 2) (titlePos.2 - bgHeight / 2)
          bgWidth bgHeight 16]
      else []
    | none => []
  let subFont : FontSpec := ⟨font.2, subtitleSize, font.1⟩
  let subtitleWidth := measure subFont config.subtitle
  let pillPadding := subtitleSize * (4 / 10)
  let pillWidth := subtitleWidth + pillPadding * 2
  let pillHeight := subtitleSize * (16 / 10)
  let subBgOps :=
    if subBgFinal config ≠ "transparent" then
      [DrawOp.fillPill (subBgFinal config) (subPos.1 - pillWidth / 2)
        (subPos.2 - pillHeight / 2) pillWidth pillHeight (pillHeight / 2)]
    else []
  titleBgOps ++
  [DrawOp.strokeTextAt config.shadowColor (baseSize * (8 / 100)) titleFont title
     titlePos.1 titlePos.2,
   DrawOp.fillTextAt config.textColor titleFont title titlePos.1 titlePos.2,
   DrawOp.fillPill "rgba(0,0,0,0.3)" (subPos.1 - pillWidth / 2 + 4)
     (subPos.2 - pillHeight / 2 + 4) pillWidth pillHeight (pillHeight / 2)] ++
  subBgOps ++
  [DrawOp.fillTextAt (subTextFinal config) subFont config.subtitle
     subPos.1 subPos.2]

/-- Drawing commands of one sticker in the `stickers.forEach` loop of
`CoverCanvas`: translate / scale / rotate always; text content is drawn
only for the `'emoji'` type, at font size `width * 0.15`. -/
def stickerOps (width height : ℚ) (s : Sticker) : List DrawOp :=
  [DrawOp.saveCtx,
   DrawOp.translateBy (s.x / 100 * width) (s.y / 100 * height),
   DrawOp.scaleBy s.scale s.scale,
   DrawOp.rotateDeg s.rotation] ++
  (if s.type = "emoji" then
    [DrawOp.glyphAtOrigin s.content (width * (15 / 100))]
  else []) ++
  [DrawOp.restoreCtx]

/-- Input tuple of one compositor render (the props of `CoverCanvas`). -/
structure RenderInput where
  imageBase64 : String
  title : String
  layoutConfig : LayoutConfig
  width : ℚ
  height : ℚ
  stickers : List Sticker
  filter : String
  deriving DecidableEq

/-- The full render effect of `CoverCanvas` (its `img.onload` body) as a
trace: filtered base image, bottom gradient, global dimming wash, layout
text, then stickers in list order. -/
def renderCover (measure : MeasureEnv) (i : RenderInput) : List DrawOp :=
  [DrawOp.saveCtx,
   DrawOp.drawImage i.imageBase64
     (if i.filter ≠ "" ∧ i.filter ≠ "none" then i.filter else "none")
     0 0 i.width i.height,
   DrawOp.restoreCtx,
   DrawOp.gradientRect 0 i.height 0 (i.height * (7 / 10))
     0 (i.height / 2) i.width (i.height / 2),
   DrawOp.fillRect "rgba(0, 0, 0, 0.01)" 0 0 i.width i.height] ++
  drawLayoutText measure i.layoutConfig i.title i.width i.height ++
  i.stickers.flatMap (stickerOps i.width i.height)

/-! ### Layout service (layoutService.generateLayoutConfig) -/

/-- Structured JSON object returned by the generative model on success
(the response schema of `generateLayoutConfig`). -/
structure RawLayout where
  subtitle : String
  textColor : String
  shadowColor : String
  position : String
  fontStyle : String
  veoPrompt : String
  titleBackgroundColor : Option String := none
  deriving DecidableEq, Repr

/-- Abstract-font-style to concrete-font-family mapping on the success path
of `generateLayoutConfig`. -/
def resolveFontFamily (fontStyle : String) : String :=
  if fontStyle = "serif" then "\"Noto Serif SC\", serif"
  else if fontStyle = "handwritten" then "\"Ma Shan Zheng\", cursive"
  else if fontStyle = "bold" then "\"ZCOOL QingKe HuangYou\", sans-serif"
  else if fontStyle = "modern" then "\"Noto Sans SC\", sans-serif"
  else "\"Microsoft YaHei\", sans-serif"

/-- Success-path result of `generateLayoutConfig`: the parsed JSON enriched
with the concrete font family. -/
def enrichLayout (j : RawLayout) : LayoutConfig :=
  { subtitle := j.subtitle, textColor := j.textColor,
    shadowColor := j.shadowColor, fontStyle := j.fontStyle,
    position := j.position, veoPrompt := j.veoPrompt,
    titleBackgroundColor := j.titleBackgroundColor,
    fontFamily := some (resolveFontFamily j.fontStyle) }

/-- The hardcoded fallback config of `generateLayoutConfig`'s catch block. -/
def fallbackConfig : LayoutConfig :=
  { subtitle := "爆款封面", textColor := "#FFFFFF", shadowColor := "#000000",
    position := "bottom", fontStyle := "bold",
    veoPrompt := "Cinematic slow motion, keep text static.",
    fontFamily := some "\"Microsoft YaHei\", sans-serif" }

/-- Authorization-class error detection of the catch block:
`error.message && (includes "Requested entity was not found" ||
includes "API key not valid" || includes "403")`. -/
def isAuthErrorMsg (msg : String) : Bool :=
  msg ≠ "" &&
    (strIncludes msg "Requested entity was not found" ||
     strIncludes msg "API key not valid" ||
     strIncludes msg "403")

/-- Result of `generateLayoutConfig` as seen by its caller: a config, or the
thrown "API Key required" needs-credential error. -/
inductive LayoutResult where
  | ok (cfg : LayoutConfig)
  | needsKey
  deriving DecidableEq, Repr

/-- The `generateLayoutConfig` control flow, over the outcome of the service
call: success is enriched and returned; a failure whose message is
authorization-class re-throws as a needs-credential error only when the
AI Studio key-selection environment (`window.aistudio`) is present, and
otherwise — like every generic failure — yields the fallback config. -/
def generateLayoutConfig (hasAistudio : Bool)
    (svc : Except String RawLayout) : LayoutResult :=
  match svc with
  | .ok j => .ok (enrichLayout j)
  | .error msg =>
    if isAuthErrorMsg msg && hasAistudio then .needsKey
    else .ok fallbackConfig

/-! ### Layout seeding (App.handleGenerateLayout) -/

/-- Initial `(titleY, subtitleY)` derived from the position hint in
`handleGenerateLayout` (defaults `(50, 65)`, then the if-chain). -/
def seedPositions (position : String) : ℚ × ℚ :=
  if position = "top" then (20, 30)
  else if position = "bottom" then (80, 90)
  else if position = "split" then (15, 85)
  else if position = "center" then (50, 65)
  else (50, 65)

/-- The seeded `LayoutConfig` stored by `handleGenerateLayout` when a fresh
config arrives from the service. -/
def seedLayoutConfig (config : LayoutConfig) (activeFilter : String) :
    LayoutConfig :=
  { config with
    x := some 50,
    y := some (seedPositions config.position).1,
    subtitleX := some 50,
    subtitleY := some (seedPositions config.position).2,
    scale := some 1,
    filter := some activeFilter,
    titleBackgroundColor :=
      some (strOrDefault config.titleBackgroundColor "transparent"),
    subtitleTextColor :=
      some (if config.textColor = "#FFFFFF" then "#FFFFFF"
            else config.shadowColor),
    subtitleBackgroundColor :=
      some (if config.textColor = "#FFFFFF" then config.shadowColor
            else "#FFFFFF") }

/-! ### Sticker creation and addressing (App.tsx) -/

/-- Decimal rendering of a natural number, modelling the JS
`Number.prototype.toString()` applied to `Date.now()`. -/
def natIdString (n : ℕ) : String :=
  (((Nat.digits 10 n).reverse.map Nat.digitChar)).asString

/-- The `handleAddSticker` handler: appends a fresh sticker whose id is the
current epoch-millisecond timestamp rendered in decimal, at defaults
`(x, y) = (50, 50)`, scale 1, rotation 0, type `'emoji'`. -/
def handleAddSticker (now : ℕ) (content : String) (stickers : List Sticker) :
    List Sticker :=
  stickers ++ [{ id := natIdString now, type := "emoji", content := content,
                 x := 50, y := 50, scale := 1, rotation := 0 }]

/-- Sticker list after a sequence of add operations (timestamp, content)
starting from the empty list. -/
def runAdds (entries : List (ℕ × String)) : List Sticker :=
  entries.foldl (fun acc e => handleAddSticker e.1 e.2 acc) []

/-- The `handleUpdateSticker` handler: maps over the list, merging changes
into every sticker whose id matches. -/
def handleUpdateSticker (id : String) (changes : Sticker → Sticker)
    (stickers : List Sticker) : List Sticker :=
  stickers.map (fun s => if s.id = id then changes s else s)

/-- The `handleRemoveSticker` handler: keeps the stickers whose id differs. -/
def handleRemoveSticker (id : String) (stickers : List Sticker) :
    List Sticker :=
  stickers.filter (fun s => s.id ≠ id)

/-! ### Overlay drag handlers (StickerOverlay, LayoutEditorOverlay) -/

/-- Drag bookkeeping captured on pointer-down: pointer client coordinates
and the element's percentage position at that moment. -/
structure DragRef where
  startX : ℚ
  startY : ℚ
  initX : ℚ
  initY : ℚ
  deriving DecidableEq, Repr

/-- The `handlePointerMove` position update of `StickerOverlay`: pixel delta
from the drag start, divided by the live container bounding rect, times
100, added to the initial percentage position — with no clamping. -/
def stickerDragUpdate (d : DragRef) (clientX clientY rectW rectH : ℚ) :
    ℚ × ℚ :=
  let deltaXPercent := (clientX - d.startX) / rectW * 100
  let deltaYPercent := (clientY - d.startY) / rectH * 100
  (d.initX + deltaXPercent, d.initY + deltaYPercent)

/-- The `handlePointerMove` position update of `LayoutEditorOverlay` (same
arithmetic, applied to title or subtitle percentage coordinates). -/
def layoutDragUpdate (d : DragRef) (clientX clientY rectW rectH : ℚ) :
    ℚ × ℚ :=
  let deltaXPercent := (clientX - d.startX) / rectW * 100
  let deltaYPercent := (clientY - d.startY) / rectH * 100
  (d.initX + deltaXPercent, d.initY + deltaYPercent)

/-! ### Predicates on drawing commands -/

/-- Commands that put text or glyph content on the canvas. -/
def isTextDrawOp : DrawOp → Bool
  | .glyphAtOrigin _ _ => true
  | .fillTextAt _ _ _ _ _ => true
  | .strokeTextAt _ _ _ _ _ _ => true
  | _ => false

/-- Rounded-pill fill command with the given color. -/
def isPillColor (c : String) : DrawOp → Bool
  | .fillPill col _ _ _ _ _ => col = c
  | _ => false

/-! ### Concrete fixtures used by witnesses and counterexamples -/

/-- Text-measurement environment reporting a fixed width. -/
def flatMeasure : MeasureEnv := fun _ _ => 10

/-- A concrete layout config as the service could return it. -/
def sampleConfig : LayoutConfig :=
  { subtitle := "穿搭灵感", textColor := "#FFFFFF", shadowColor := "#000000",
    fontStyle := "bold", position := "bottom", veoPrompt := "slow zoom" }

/-- The sample config with the subtitle background forced transparent. -/
def sampleConfigTransparent : LayoutConfig :=
  { sampleConfig with subtitleBackgroundColor := some "transparent" }

/-- A concrete compositor input at the 3:4 canvas size. -/
def sampleInput : RenderInput :=
  { imageBase64 := "img", title := "OOTD", layoutConfig := sampleConfig,
    width := 750, height := 1000, stickers := [], filter := "none" }

/-- A concrete emoji-type sticker. -/
def sampleEmojiSticker : Sticker :=
  { id := "1", type := "emoji", content := "✨", x := 50, y := 50,
    scale := 1, rotation := 0 }

/-- A concrete text-type sticker. -/
def sampleTextSticker : Sticker :=
  { id := "2", type := "text", content := "NEW", x := 50, y := 50,
    scale := 1, rotation := 0 }

/-- The sticker created by an add at timestamp 1 (used by witnesses). -/
def firstAddedSticker : Sticker :=
  { id := natIdString 1, type := "emoji", content := "✨", x := 50, y := 50,
    scale := 1, rotation := 0 }

/-! ### Theorems -/

/-- C1: the Compositor is deterministic — for every text-measurement
environment, two renders of the same input tuple (base image, filter,
layout config, title, ordered sticker list, canvas dimensions) produce the
identical trace of drawing commands, hence identical pixel output; preview
and export invocations on the same model state are pixel-identical. -/
theorem renderCover_deterministic (measure : MeasureEnv)
    (i j : RenderInput) (h : i = j) :
    renderCover measure i = renderCover measure j := by
  rw [h]

/-- Witness for C1 at a concrete input tuple. -/
theorem renderCover_deterministic_witness :
    renderCover flatMeasure sampleInput = renderCover flatMeasure sampleInput :=
  renderCover_deterministic flatMeasure sampleInput sampleInput rfl

/-- C2 counterexample: for the 3:4 target ratio, `handleSave` computes an
output canvas of 1080 × 1440 — the long edge is 1440, not 1080 (the 1080px
normalization is applied to the width unconditionally). -/
theorem crop_output_long_edge_cex :
    outputHeight AspectRatio.vertical = 1440 ∧
    max outputWidth (outputHeight AspectRatio.vertical) ≠ 1080 := by
  constructor <;> norm_num [outputHeight, outputWidth, ratioMultipliers]

/-- C2 amended: committing a crop renders into an output canvas whose width
is always 1080 and whose height is `1080 / ratio` (truncated to whole
pixels by the canvas element: 1440, 1080, 1920 and 607 for 3:4, 1:1, 9:16
and 16:9); the computed width/height ratio equals the selected target
ratio, and the long edge is 1080 only for the ratios ≥ 1 (1:1 and 16:9). -/
theorem crop_output_dims :
    (∀ r, outputWidth = 1080 ∧
      outputWidth / outputHeight r = ratioMultipliers r) ∧
    canvasHeightPx AspectRatio.vertical = 1440 ∧
    canvasHeightPx AspectRatio.square = 1080 ∧
    canvasHeightPx AspectRatio.portrait = 1920 ∧
    canvasHeightPx AspectRatio.landscape = 607 ∧
    max outputWidth (outputHeight AspectRatio.square) = 1080 ∧
    max outputWidth (outputHeight AspectRatio.landscape) = 1080 := by
  have h : ∀ r, outputWidth = 1080 ∧
      outputWidth / outputHeight r = ratioMultipliers r := by
    intro r
    cases r <;>
      exact ⟨by norm_num [outputWidth],
        by norm_num [outputHeight, outputWidth, ratioMultipliers]⟩
  refine ⟨h, ?_, ?_, ?_, ?_, ?_, ?_⟩ <;>
    norm_num [canvasHeightPx, outputHeight, outputWidth, ratioMultipliers]

/-- C6: for every drag of a title, subtitle or sticker element, the new
percentage position equals the position at pointer-down plus the pixel
delta divided by the rendered container size times 100, with no clamping
to [0, 100]; dragging a sticker at (50, 50) by (+100px, 0px) in a
400px-wide container yields x = 75, and a +300px drag yields x = 125,
off-canvas. -/
theorem drag_update_formula :
    (∀ d clientX clientY rectW rectH,
      stickerDragUpdate d clientX clientY rectW rectH =
        (d.initX + (clientX - d.startX) / rectW * 100,
         d.initY + (clientY - d.startY) / rectH * 100) ∧
      layoutDragUpdate d clientX clientY rectW rectH =
        (d.initX + (clientX - d.startX) / rectW * 100,
         d.initY + (clientY - d.startY) / rectH * 100)) ∧
    stickerDragUpdate ⟨0, 0, 50, 50⟩ 100 0 400 400 = (75, 50) ∧
    stickerDragUpdate ⟨0, 0, 50, 50⟩ 300 0 400 400 = (125, 50) := by
  refine ⟨fun d cx cy w h => ⟨rfl, rfl⟩, ?_, ?_⟩ <;>
    norm_num [stickerDragUpdate, Prod.ext_iff]

/-- C8: when a freshly generated config is received, `handleGenerateLayout`
derives the initial placement from the position hint — top → (20, 30),
bottom → (80, 90), split → (15, 85), center → (50, 65) for
(titleY, subtitleY) — and always seeds titleX = subtitleX = 50, so a
"bottom" hint gives (x, y) = (50, 80) and (subtitleX, subtitleY) =
(50, 90). -/
theorem layout_seed_positions :
    seedPositions "top" = (20, 30) ∧ seedPositions "bottom" = (80, 90) ∧
    seedPositions "split" = (15, 85) ∧ seedPositions "center" = (50, 65) ∧
    ∀ config activeFilter,
      (seedLayoutConfig config activeFilter).x = some 50 ∧
      (seedLayoutConfig config activeFilter).subtitleX = some 50 ∧
      (seedLayoutConfig config activeFilter).y =
        some (seedPositions config.position).1 ∧
      (seedLayoutConfig config activeFilter).subtitleY =
        some (seedPositions config.position).2 := by
  refine ⟨by decide, by decide, by decide, by decide,
    fun config activeFilter => ⟨rfl, rfl, rfl, rfl⟩⟩

/-- C5: with pan (0,0) and scale 1, the crop source rectangle obtained by
mapping the container corners (0,0) and (cw,ch) through `mapDomToSource`
is centered exactly at (nw/2, nh/2) and has the container's aspect ratio
cw/ch — the aspect ratio of the cover-fit implied source crop. -/
theorem mapper_round_trip (cw ch nw nh : ℚ) (hcw : 0 < cw) (hch : 0 < ch)
    (hnw : 0 < nw) (hnh : 0 < nh) :
    (cropSourceRect cw ch nw nh 0 0 1).1 +
      (cropSourceRect cw ch nw nh 0 0 1).2.2.1 / 2 = nw / 2 ∧
    (cropSourceRect cw ch nw nh 0 0 1).2.1 +
      (cropSourceRect cw ch nw nh 0 0 1).2.2.2 / 2 = nh / 2 ∧
    (cropSourceRect cw ch nw nh 0 0 1).2.2.1 /
      (cropSourceRect cw ch nw nh 0 0 1).2.2.2 = cw / ch := by
  have hrw : 0 < (baseRenderSize cw ch nw nh).1 := by
    unfold baseRenderSize
    split
    · exact mul_pos hch (div_pos hnw hnh)
    · exact hcw
  have hscale : nw / (baseRenderSize cw ch nw nh).1 ≠ 0 :=
    div_ne_zero hnw.ne' hrw.ne'
  refine ⟨?_, ?_, ?_⟩
  · simp only [cropSourceRect, mapDomToSource]
    ring
  · simp only [cropSourceRect, mapDomToSource]
    ring
  · simp only [cropSourceRect, mapDomToSource]
    calc (nw / 2 + (cw - (cw / 2 + 0)) / 1 * (nw / (baseRenderSize cw ch nw nh).1) -
          (nw / 2 + (0 - (cw / 2 + 0)) / 1 * (nw / (baseRenderSize cw ch nw nh).1))) /
         (nh / 2 + (ch - (ch / 2 + 0)) / 1 * (nw / (baseRenderSize cw ch nw nh).1) -
          (nh / 2 + (0 - (ch / 2 + 0)) / 1 * (nw / (baseRenderSize cw ch nw nh).1)))
        = (cw * (nw / (baseRenderSize cw ch nw nh).1)) /
          (ch * (nw / (baseRenderSize cw ch nw nh).1)) := by
          rw [show (nw / 2 + (cw - (cw / 2 + 0)) / 1 * (nw / (baseRenderSize cw ch nw nh).1) -
            (nw / 2 + (0 - (cw / 2 + 0)) / 1 * (nw / (baseRenderSize cw ch nw nh).1))) =
            cw * (nw / (baseRenderSize cw ch nw nh).1) from by ring,
            show (nh / 2 + (ch - (ch / 2 + 0)) / 1 * (nw / (baseRenderSize cw ch nw nh).1) -
            (nh / 2 + (0 - (ch / 2 + 0)) / 1 * (nw / (baseRenderSize cw ch nw nh).1))) =
            ch * (nw / (baseRenderSize cw ch nw nh).1) from by ring]
      _ = cw / ch := mul_div_mul_right cw ch hscale

/-- Witness for C5 at container 4 × 3 and natural size 16 × 9. -/
theorem mapper_round_trip_witness :
    (cropSourceRect 4 3 16 9 0 0 1).1 +
      (cropSourceRect 4 3 16 9 0 0 1).2.2.1 / 2 = 16 / 2 ∧
    (cropSourceRect 4 3 16 9 0 0 1).2.1 +
      (cropSourceRect 4 3 16 9 0 0 1).2.2.2 / 2 = 9 / 2 ∧
    (cropSourceRect 4 3 16 9 0 0 1).2.2.1 /
      (cropSourceRect 4 3 16 9 0 0 1).2.2.2 = 4 / 3 :=
  mapper_round_trip 4 3 16 9 (by norm_num) (by norm_num) (by norm_num)
    (by norm_num)

/-- Slider-range invariant preserved along any event sequence. -/
theorem scale_bounds_invariant (evs : List CropEvent) (s : CropState)
    (h : 1 / 2 ≤ s.scale ∧ s.scale ≤ 3) :
    1 / 2 ≤ (evs.foldl stepCrop s).scale ∧ (evs.foldl stepCrop s).scale ≤ 3 := by
  induction evs generalizing s with
  | nil => exact h
  | cons e t ih =>
    apply ih
    cases e with
    | dragTo x y => exact h
    | zoomSlider v =>
      refine ⟨le_max_left _ _, max_le (by norm_num) (min_le_left _ _)⟩
    | resetConfig => exact ⟨by norm_num [stepCrop, resetState], by norm_num [stepCrop, resetState]⟩

/-- Fresh cropper state covers the crop window for any positive sizes. -/
theorem resetState_covers (cw ch nw nh : ℚ) (_hcw : 0 < cw) (hch : 0 < ch)
    (hnw : 0 < nw) (hnh : 0 < nh) : covers cw ch nw nh resetState := by
  have hq : 0 < nw / nh := div_pos hnw hnh
  unfold covers resetState baseRenderSize
  split
  · next hgt =>
    constructor
    · have hlt : cw < nw / nh * ch := (div_lt_iff₀ hch).mp hgt
      simp only [abs_zero]
      nlinarith
    · simp only [abs_zero]
      norm_num
  · next hle =>
    push_neg at hle
    have h2 : nw * ch ≤ cw * nh := (div_le_div_iff₀ hnh hch).mp hle
    constructor
    · simp only [abs_zero]
      norm_num
    · have hdiv : ch ≤ cw / (nw / nh) := by
        rw [le_div_iff₀ hq, mul_comm, div_mul_eq_mul_div, div_le_iff₀ hnh]
        linarith
      simp only [abs_zero]
      linarith

/-- C3 counterexample: the state reached from a fresh cropper by moving the
zoom slider to its minimum 0.5 is reachable, its scale is strictly below
the minimum cover scale for a 200 × 100 image in a 100 × 100 container,
and the transform does not cover the crop window there. -/
theorem crop_scale_clamp_cex :
    runCrop [CropEvent.zoomSlider (1 / 2)] = ⟨0, 0, 1 / 2⟩ ∧
    (runCrop [CropEvent.zoomSlider (1 / 2)]).scale <
      minCoverScale 100 100 200 100 ∧
    ¬ covers 100 100 200 100 (runCrop [CropEvent.zoomSlider (1 / 2)]) := by
  have hbase : baseRenderSize 100 100 200 100 = (200, 100) := by
    unfold baseRenderSize
    rw [if_pos (by norm_num : (200 : ℚ) / 100 > 100 / 100)]
    norm_num
  have hrun : runCrop [CropEvent.zoomSlider (1 / 2)] = ⟨0, 0, 1 / 2⟩ := by
    have hc : sliderClamp (1 / 2) = 1 / 2 := by
      unfold sliderClamp
      rw [min_eq_right (by norm_num : (1 / 2 : ℚ) ≤ 3), max_self]
    show (⟨0, 0, sliderClamp (1 / 2)⟩ : CropState) = ⟨0, 0, 1 / 2⟩
    rw [hc]
  refine ⟨hrun, ?_, ?_⟩
  · rw [hrun]
    simp only [minCoverScale, hbase]
    rw [max_eq_right (by norm_num : (100 : ℚ) / 200 ≤ 100 / 100)]
    norm_num
  · rw [hrun]
    intro h
    rw [covers, hbase] at h
    rcases h with ⟨-, h2⟩
    rw [abs_zero] at h2
    norm_num at h2

/-- C3 amended: the cropper clamps scale only to the fixed zoom-slider range
[0.5, 3] — in every reachable state `0.5 ≤ scale ≤ 3`; no minimum cover
scale computed from the image and container aspect ratios is enforced
(the slider admits scale 0.5, below the cover minimum 1), and the crop
window is fully covered in the freshly-reset state. -/
theorem crop_scale_slider_bounds (evs : List CropEvent) :
    (1 / 2 ≤ (runCrop evs).scale ∧ (runCrop evs).scale ≤ 3) ∧
    ∀ cw ch nw nh : ℚ, 0 < cw → 0 < ch → 0 < nw → 0 < nh →
      covers cw ch nw nh resetState := by
  constructor
  · exact scale_bounds_invariant evs resetState (by norm_num [resetState])
  · intro cw ch nw nh hcw hch hnw hnh
    exact resetState_covers cw ch nw nh hcw hch hnw hnh

/-- Witness for C3's amended theorem at a concrete event sequence and
concrete container and image sizes. -/
theorem crop_scale_slider_bounds_witness :
    (1 / 2 ≤ (runCrop [CropEvent.zoomSlider 2, CropEvent.dragTo 7 9]).scale ∧
      (runCrop [CropEvent.zoomSlider 2, CropEvent.dragTo 7 9]).scale ≤ 3) ∧
    covers 100 100 200 100 resetState :=
  ⟨(crop_scale_slider_bounds [CropEvent.zoomSlider 2, CropEvent.dragTo 7 9]).1,
   (crop_scale_slider_bounds [CropEvent.zoomSlider 2, CropEvent.dragTo 7 9]).2
     100 100 200 100 (by norm_num) (by norm_num) (by norm_num) (by norm_num)⟩

/-- C4 counterexample: a sticker of type 'text' does not render as plain
centered text — the Compositor's sticker loop draws no text for it at all
(its trace holds no text-drawing command), while an emoji-type sticker
does get its glyph at font size canvasWidth × 0.15. -/
theorem sticker_text_type_cex :
    sampleTextSticker.type = "text" ∧
    (stickerOps 750 1000 sampleTextSticker).filter isTextDrawOp = [] ∧
    (stickerOps 750 1000 sampleEmojiSticker).filter isTextDrawOp =
      [DrawOp.glyphAtOrigin "✨" (750 * (15 / 100))] :=
  ⟨rfl, rfl, rfl⟩

/-- C4 amended: in the Compositor's sticker layer, every emoji-type sticker
is drawn as directly rendered character content sized at
canvasWidth × 0.15 before the sticker's scale/rotation transform, centered
at its percentage-resolved position, in list order; stickers of type
'text' produce no drawn content in the Compositor (only the transform is
set up and restored). -/
theorem sticker_layer_render (measure : MeasureEnv) (w h : ℚ) (s : Sticker)
    (i : RenderInput) :
    (s.type = "emoji" →
      stickerOps w h s =
        [DrawOp.saveCtx,
         DrawOp.translateBy (s.x / 100 * w) (s.y / 100 * h),
         DrawOp.scaleBy s.scale s.scale,
         DrawOp.rotateDeg s.rotation,
         DrawOp.glyphAtOrigin s.content (w * (15 / 100)),
         DrawOp.restoreCtx]) ∧
    (s.type ≠ "emoji" → (stickerOps w h s).filter isTextDrawOp = []) ∧
    renderCover measure i =
      renderCover measure { i with stickers := [] } ++
        i.stickers.flatMap (stickerOps i.width i.height) := by
  refine ⟨?_, ?_, ?_⟩
  · intro hty
    simp [stickerOps, hty]
  · intro hty
    simp [stickerOps, hty, isTextDrawOp]
  · simp [renderCover]

/-- Witness for C4's amended theorem on concrete emoji and text stickers. -/
theorem sticker_layer_render_witness :
    stickerOps 750 1000 sampleEmojiSticker =
      [DrawOp.saveCtx,
       DrawOp.translateBy (50 / 100 * 750) (50 / 100 * 1000),
       DrawOp.scaleBy 1 1, DrawOp.rotateDeg 0,
       DrawOp.glyphAtOrigin "✨" (750 * (15 / 100)),
       DrawOp.restoreCtx] ∧
    (stickerOps 750 1000 sampleTextSticker).filter isTextDrawOp = [] :=
  ⟨(sticker_layer_render flatMeasure 750 1000 sampleEmojiSticker
      sampleInput).1 rfl,
   (sticker_layer_render flatMeasure 750 1000 sampleTextSticker
      sampleInput).2.1 (by decide)⟩

/-- C10: in every render of the subtitle layer, the semi-transparent black
drop-shadow pill (color rgba(0,0,0,0.3), offset +4px on both axes) is
drawn, including when the effective subtitle background color is
'transparent' — in that case no pill of color 'transparent' appears
anywhere in the trace, so only the background pill is skipped, never the
shadow pill. -/
theorem subtitle_shadow_always (measure : MeasureEnv) (cfg : LayoutConfig)
    (title : String) (w h : ℚ) :
    (drawLayoutText measure cfg title w h).any
      (isPillColor "rgba(0,0,0,0.3)") = true ∧
    (subBgFinal cfg = "transparent" →
      (drawLayoutText measure cfg title w h).any
        (isPillColor "transparent") = false) := by
  constructor
  · simp only [drawLayoutText, List.any_append, List.any_cons, List.any_nil,
      isPillColor]
    simp
  · intro hbg
    simp only [drawLayoutText, hbg, List.any_append, List.any_cons,
      List.any_nil, isPillColor]
    cases hc : cfg.titleBackgroundColor with
    | none => simp
    | some c =>
      by_cases hcc : c ≠ "" ∧ c ≠ "transparent"
      · simp [isPillColor, hcc, hcc.2]
      · simp [hcc]

/-- Witness for C10 at a concrete config whose subtitle background is
'transparent'. -/
theorem subtitle_shadow_always_witness :
    (drawLayoutText flatMeasure sampleConfigTransparent "OOTD" 750 1000).any
      (isPillColor "rgba(0,0,0,0.3)") = true ∧
    (drawLayoutText flatMeasure sampleConfigTransparent "OOTD" 750 1000).any
      (isPillColor "transparent") = false :=
  ⟨(subtitle_shadow_always flatMeasure sampleConfigTransparent
      "OOTD" 750 1000).1,
   (subtitle_shadow_always flatMeasure sampleConfigTransparent
      "OOTD" 750 1000).2 rfl⟩

/-- C7 counterexample: an authorization-class failure ("API key not valid…")
is NOT propagated when the AI Studio key-selection environment is absent —
`generateLayoutConfig` returns the fallback config for it instead of the
needs-credential condition. -/
theorem layout_auth_fallback_cex :
    isAuthErrorMsg "API key not valid. Please pass a valid API key." = true ∧
    generateLayoutConfig false
      (.error "API key not valid. Please pass a valid API key.") =
      .ok fallbackConfig := by
  constructor <;> decide

/-- C7 amended: when the layout-service call fails with a generic
(non-authorization) error, `generateLayoutConfig` returns the fixed
fallback config, whose required fields (subtitle, textColor, shadowColor,
position, fontStyle, veoPrompt) are all populated and non-empty, instead
of throwing; when it fails with an authorization-class error the
needs-credential condition is propagated only if the AI Studio
key-selection environment is present — without it, even authorization
errors fall back. -/
theorem layout_fallback_policy (msg : String) :
    (isAuthErrorMsg msg = false →
      ∀ hasAistudio,
        generateLayoutConfig hasAistudio (.error msg) = .ok fallbackConfig) ∧
    (isAuthErrorMsg msg = true →
      generateLayoutConfig true (.error msg) = .needsKey) ∧
    (isAuthErrorMsg msg = true →
      generateLayoutConfig false (.error msg) = .ok fallbackConfig) ∧
    (fallbackConfig.subtitle ≠ "" ∧ fallbackConfig.textColor ≠ "" ∧
     fallbackConfig.shadowColor ≠ "" ∧ fallbackConfig.position ≠ "" ∧
     fallbackConfig.fontStyle ≠ "" ∧ fallbackConfig.veoPrompt ≠ "") := by
  refine ⟨fun h hasAistudio => ?_, fun h => ?_, fun h => ?_, by decide⟩ <;>
    simp [generateLayoutConfig, h]

/-- Witness for C7's amended theorem at concrete error messages. -/
theorem layout_fallback_policy_witness :
    generateLayoutConfig true (.error "network down") = .ok fallbackConfig ∧
    generateLayoutConfig true (.error "API key not valid") = .needsKey ∧
    generateLayoutConfig false (.error "API key not valid") =
      .ok fallbackConfig :=
  ⟨(layout_fallback_policy "network down").1 (by decide) true,
   (layout_fallback_policy "API key not valid").2.1 (by decide),
   (layout_fallback_policy "API key not valid").2.2.1 (by decide)⟩

/-- Decimal digit characters are distinct for digits below 10. -/
theorem digitChar_inj_lt : ∀ a, a < 10 → ∀ b, b < 10 →
    Nat.digitChar a = Nat.digitChar b → a = b := by decide

/-- Mapping `Nat.digitChar` over lists of digits below 10 is injective. -/
theorem map_digitChar_inj : ∀ l1 l2 : List ℕ, (∀ a ∈ l1, a < 10) →
    (∀ a ∈ l2, a < 10) → l1.map Nat.digitChar = l2.map Nat.digitChar →
    l1 = l2 := by
  intro l1
  induction l1 with
  | nil =>
    intro l2 _ _ h
    cases l2 with
    | nil => rfl
    | cons b t2 => simp at h
  | cons a t ih =>
    intro l2 h1 h2 h
    cases l2 with
    | nil => simp at h
    | cons b t2 =>
      simp only [List.map_cons, List.cons.injEq] at h
      have ha := h1 a (List.mem_cons_self a t)
      have hb := h2 b (List.mem_cons_self b t2)
      have hab := digitChar_inj_lt a ha b hb h.1
      have ht := ih t2 (fun x hx => h1 x (List.mem_cons_of_mem a hx))
        (fun x hx => h2 x (List.mem_cons_of_mem b hx)) h.2
      rw [hab, ht]

/-- The decimal id rendering is injective: distinct timestamps give
distinct id strings. -/
theorem natIdString_injective : Function.Injective natIdString := by
  intro m n h
  have hl : (Nat.digits 10 m).reverse.map Nat.digitChar =
      (Nat.digits 10 n).reverse.map Nat.digitChar := by
    have hd := congrArg String.data h
    simpa [natIdString, List.asString] using hd
  have hr : (Nat.digits 10 m).reverse = (Nat.digits 10 n).reverse :=
    map_digitChar_inj _ _
      (fun a ha => Nat.digits_lt_base (by norm_num) (List.mem_reverse.mp ha))
      (fun a ha => Nat.digits_lt_base (by norm_num) (List.mem_reverse.mp ha))
      hl
  exact Nat.digits.injective 10 (List.reverse_injective hr)

/-- Unfolding of the add-sticker fold into a map over the entries. -/
theorem runAdds_eq_map (entries : List (ℕ × String)) :
    runAdds entries = entries.map (fun e =>
      { id := natIdString e.1, type := "emoji", content := e.2,
        x := 50, y := 50, scale := 1, rotation := 0 }) := by
  have gen : ∀ (es : List (ℕ × String)) (acc : List Sticker),
      es.foldl (fun a e => handleAddSticker e.1 e.2 a) acc =
        acc ++ es.map (fun e =>
          { id := natIdString e.1, type := "emoji", content := e.2,
            x := 50, y := 50, scale := 1, rotation := 0 }) := by
    intro es
    induction es with
    | nil => intro acc; simp
    | cons e t ih =>
      intro acc
      simp only [List.foldl_cons, List.map_cons]
      rw [ih]
      simp [handleAddSticker]
  exact gen entries []

/-- With pairwise-distinct mapped ids, exactly one list entry matches a
member's id. -/
theorem countP_id_eq_one {l : List Sticker}
    (hn : (l.map Sticker.id).Nodup) {s : Sticker} (hs : s ∈ l) :
    l.countP (fun t => t.id = s.id) = 1 := by
  induction l with
  | nil => cases hs
  | cons a t ih =>
    rw [List.map_cons, List.nodup_cons] at hn
    rcases List.mem_cons.mp hs with rfl | hmem
    · rw [List.countP_cons_of_pos _ _ (by simp)]
      have hz : t.countP (fun x => decide (x.id = s.id)) = 0 := by
        rw [List.countP_eq_zero]
        intro x hx
        simp only [decide_eq_true_eq]
        intro heq
        exact hn.1 (by rw [← heq]; exact List.mem_map_of_mem Sticker.id hx)
      rw [hz]
    · have hne : a.id ≠ s.id := fun heq =>
        hn.1 (by rw [heq]; exact List.mem_map_of_mem Sticker.id hmem)
      rw [List.countP_cons_of_neg _ _ (by simpa using hne)]
      exact ih hn.2 hmem

/-- With pairwise-distinct mapped ids, removal by a member's id drops
exactly one sticker. -/
theorem removeSticker_length {l : List Sticker}
    (hn : (l.map Sticker.id).Nodup) {s : Sticker} (hs : s ∈ l) :
    (handleRemoveSticker s.id l).length = l.length - 1 := by
  induction l with
  | nil => cases hs
  | cons a t ih =>
    rw [List.map_cons, List.nodup_cons] at hn
    rcases List.mem_cons.mp hs with rfl | hmem
    · simp only [handleRemoveSticker, List.filter_cons]
      rw [if_neg (by simp)]
      have hkeep : t.filter (fun x => decide (x.id ≠ s.id)) = t := by
        rw [List.filter_eq_self]
        intro x hx
        simp only [decide_eq_true_eq]
        intro heq
        exact hn.1 (by rw [← heq]; exact List.mem_map_of_mem Sticker.id hx)
      rw [hkeep]
      simp
    · have hne : a.id ≠ s.id := fun heq =>
        hn.1 (by rw [heq]; exact List.mem_map_of_mem Sticker.id hmem)
      have hpos : 0 < t.length := List.length_pos_of_mem hmem
      have ht := ih hn.2 hmem
      simp only [handleRemoveSticker, List.filter_cons] at ht ⊢
      rw [if_pos (by simpa using hne)]
      simp only [List.length_cons]
      omega

/-- Decimal rendering of the concrete timestamp 5. -/
theorem natIdString_five : natIdString 5 = "5" := by
  have h5 : Nat.digits 10 5 = [5] := by
    rw [Nat.digits_def' (by norm_num : (1 : ℕ) < 10) (by norm_num : 0 < 5)]
    norm_num
  rw [natIdString, h5]
  rfl

/-- C9 counterexample: two add-sticker operations in the same millisecond
(equal `Date.now()` values) produce colliding ids — the id list is not
pairwise distinct, and an update addressed by that id matches two
stickers, not exactly one. -/
theorem sticker_ids_cex :
    (runAdds [(5, "✨"), (5, "🔥")]).map Sticker.id = ["5", "5"] ∧
    ¬ ((runAdds [(5, "✨"), (5, "🔥")]).map Sticker.id).Nodup ∧
    (runAdds [(5, "✨"), (5, "🔥")]).countP (fun t => t.id = "5") = 2 := by
  have hmap : (runAdds [(5, "✨"), (5, "🔥")]).map Sticker.id = ["5", "5"] := by
    rw [runAdds_eq_map]
    simp [natIdString_five]
  refine ⟨hmap, ?_, ?_⟩
  · rw [hmap]
    decide
  · rw [runAdds_eq_map]
    simp [natIdString_five]

/-- C9 amended: sticker ids are pairwise distinct after every sequence of
add-sticker operations whose creation timestamps (`Date.now()` values) are
pairwise distinct — the decimal rendering is injective — and then an
update or removal addressed by a sticker's id affects exactly one sticker;
adds within the same millisecond violate this. -/
theorem sticker_ids_unique (entries : List (ℕ × String))
    (h : (entries.map Prod.fst).Nodup) :
    ((runAdds entries).map Sticker.id).Nodup ∧
    ∀ s ∈ runAdds entries,
      (runAdds entries).countP (fun t => t.id = s.id) = 1 ∧
      (handleRemoveSticker s.id (runAdds entries)).length =
        (runAdds entries).length - 1 := by
  have hnodup : ((runAdds entries).map Sticker.id).Nodup := by
    have h2 : ((entries.map Prod.fst).map natIdString).Nodup :=
      h.map natIdString_injective
    rw [List.map_map] at h2
    rw [runAdds_eq_map, List.map_map]
    exact h2
  exact ⟨hnodup, fun s hs =>
    ⟨countP_id_eq_one hnodup hs, removeSticker_length hnodup hs⟩⟩

/-- Witness for C9's amended theorem on two adds with distinct
timestamps. -/
theorem sticker_ids_unique_witness :
    ((runAdds [(1, "✨"), (2, "🔥")]).map Sticker.id).Nodup ∧
    ((runAdds [(1, "✨"), (2, "🔥")]).countP
        (fun t => t.id = firstAddedSticker.id) = 1 ∧
      (handleRemoveSticker firstAddedSticker.id
          (runAdds [(1, "✨"), (2, "🔥")])).length =
        (runAdds [(1, "✨"), (2, "🔥")]).length - 1) :=
  ⟨(sticker_ids_unique [(1, "✨"), (2, "🔥")] (by decide)).1,
   (sticker_ids_unique [(1, "✨"), (2, "🔥")] (by decide)).2
     firstAddedSticker
     (by rw [runAdds_eq_map]; exact List.mem_cons_self _ _)⟩

end CoverGen
